import Mathlib

/-!
Verification of the AWS-infrastructure-change Slack notifier Lambda.

The Python source (one file) is shallowly embedded here:
`PyVal` models the JSON-like Python values the handler manipulates;
Python operations that can raise (`.get` on a non-dict, indexing,
the `in` operator on a non-container, `.split` on a non-string)
are modelled as `Except String`-returning helpers, the error carrying
the exception message.  `lambda_handler` additionally returns a trace
of observable actions (resource-extraction call, invocation of
`send_slack_notification`, actual HTTP post), so that claims about
"no delivery call attempted" and "no extraction performed" are statable.
-/

/-- A Python value as used by the handler: JSON-like data. -/
inductive PyVal where
  | none : PyVal
  | bool (b : Bool) : PyVal
  | int (n : Int) : PyVal
  | str (s : String) : PyVal
  | list (xs : List PyVal) : PyVal
  | dict (es : List (String × PyVal)) : PyVal

/-- Python truthiness of a value (`bool(v)`). -/
def pyTruthy : PyVal → Bool
  | .none => false
  | .bool b => b
  | .int n => !(n == 0)
  | .str s => !(s == "")
  | .list xs => !xs.isEmpty
  | .dict es => !es.isEmpty

/-- Whether the first character list is a prefix of the second. -/
def chStartsWith : List Char → List Char → Bool
  | [], _ => true
  | _ :: _, [] => false
  | a :: as, b :: bs => a == b && chStartsWith as bs

/-- Whether the first character list occurs contiguously in the second. -/
def chHasInfix (needle : List Char) : List Char → Bool
  | [] => needle.isEmpty
  | l@(_ :: tl) => chStartsWith needle l || chHasInfix needle tl

/-- Split a character list on a separator character, Python
`str.split` style (never returns an empty list of parts). -/
def chSplitOn (c : Char) : List Char → List (List Char)
  | [] => [[]]
  | x :: xs =>
    match chSplitOn c xs with
    | [] => [[x]]
    | h :: t => if x == c then [] :: h :: t else (x :: h) :: t

/-- Python substring test `sub in s` for strings. -/
def pyContainsStr (s sub : String) : Bool :=
  chHasInfix sub.toList s.toList

/-- Python `v.get(k, default)`: a dict lookup with a default; on a
non-dict receiver it raises `AttributeError`. -/
def pyGetD (v : PyVal) (k : String) (default : PyVal) : Except String PyVal :=
  match v with
  | .dict es => .ok ((es.lookup k).getD default)
  | _ => .error "AttributeError: object has no attribute get"

/-- Python one-argument `v.get(k)`: returns `None` when the key is
absent; raises on a non-dict receiver. -/
def pyGet1 (v : PyVal) (k : String) : Except String PyVal :=
  match v with
  | .dict es => .ok ((es.lookup k).getD .none)
  | _ => .error "AttributeError: object has no attribute get"

/-- Python `v[0]`: first element of a list or string, `KeyError` on a
dict (string keys only in this program), `TypeError` otherwise. -/
def pyIndex0 : PyVal → Except String PyVal
  | .list (x :: _) => .ok x
  | .list [] => .error "IndexError: list index out of range"
  | .str s =>
    match s.toList with
    | [] => .error "IndexError: string index out of range"
    | c :: _ => .ok (.str (String.mk [c]))
  | .dict _ => .error "KeyError: 0"
  | _ => .error "TypeError: object is not subscriptable"

/-- Python `needle in container` where the needle is a string:
substring test on strings, membership on lists, key membership on
dicts, `TypeError` otherwise. -/
def pyInOp (needle : String) (container : PyVal) : Except String Bool :=
  match container with
  | .str s => .ok (pyContainsStr s needle)
  | .list xs => .ok (xs.any fun x => match x with | .str t => t == needle | _ => false)
  | .dict es => .ok (es.any fun e => e.1 == needle)
  | _ => .error "TypeError: argument is not iterable"

/-- Python `v.split(!:!)[-1]` (keep the part after the last colon);
raises `AttributeError` unless the receiver is a string. -/
def pySplitColonLast : PyVal → Except String PyVal
  | .str s => .ok (.str (String.mk ((chSplitOn (Char.ofNat 58) s.toList).getLastD [])))
  | _ => .error "AttributeError: object has no attribute split"

/-- Python list membership `event_name in [n1, n2, ...]` against a list
of string literals: true only for an equal string value. -/
def isOneOf (v : PyVal) (names : List String) : Bool :=
  match v with
  | .str s => names.contains s
  | _ => false

/-- Python equality `event_name == name` against a string literal. -/
def pyEqStr (v : PyVal) (name : String) : Bool :=
  match v with
  | .str s => s == name
  | _ => false

/-- Embedding of `extract_resource_details(detail, event_name)` from the
source: the dispatch chain over event names, reading
`responseElements` / `requestParameters` with defaulting `.get` calls.
Returns the `(resourceKey, resourceValue)` pair, or the message of the
exception the Python code would raise. -/
def extract_resource_details (detail : PyVal) (event_name : PyVal) :
    Except String (String × PyVal) := do
  let response_elements ← pyGetD detail "responseElements" (.dict [])
  let request_parameters ← pyGetD detail "requestParameters" (.dict [])
  if isOneOf event_name ["TerminateInstances", "RunInstances"] then do
    let instances_set ← pyGetD response_elements "instancesSet" (.dict [])
    let items ← pyGetD instances_set "items" (.list [])
    if pyTruthy items then do
      let item0 ← pyIndex0 items
      let v ← pyGetD item0 "instanceId" (.str "")
      pure ("Instance_ID", v)
    else
      pure ("", .str "")
  else if isOneOf event_name ["CreateDBInstance", "DeleteDBInstance"] then do
    let v ← pyGetD response_elements "dBInstanceIdentifier" (.str "")
    pure ("DB_Instance_ID", v)
  else if isOneOf event_name ["CreateLoadBalancer", "DeleteLoadBalancer"] then do
    let load_balancers ← pyGetD response_elements "loadBalancers" (.list [])
    if pyTruthy load_balancers then do
      let lb0 ← pyIndex0 load_balancers
      let v ← pyGetD lb0 "loadBalancerName" (.str "")
      pure ("LoadBalancer_ID", v)
    else
      pure ("", .str "")
  else if isOneOf event_name ["CreateUser", "DeleteUser"] then do
    let user_info ← pyGetD response_elements "user" (.dict [])
    let v ← pyGetD user_info "userName" (.str "")
    pure ("User_ID", v)
  else if isOneOf event_name ["CreateGroup", "DeleteGroup"] then do
    let group_info ← pyGetD response_elements "group" (.dict [])
    let v ← pyGetD group_info "groupName" (.str "")
    pure ("Group", v)
  else if isOneOf event_name ["CreateRole", "DeleteRole"] then do
    let role_info ← pyGetD response_elements "role" (.dict [])
    let v ← pyGetD role_info "roleName" (.str "")
    pure ("Role", v)
  else if isOneOf event_name ["CreatePolicy", "DeletePolicy"] then do
    let policy_info ← pyGetD response_elements "policy" (.dict [])
    let v ← pyGetD policy_info "policyName" (.str "")
    pure ("Policy", v)
  else if isOneOf event_name ["CreateCluster", "DeleteCluster"] then do
    let cluster_info ← pyGetD response_elements "cluster" (.dict [])
    let v ← pyGetD cluster_info "clusterName" (.str "")
    pure ("Cluster", v)
  else if isOneOf event_name ["CreateRestApi", "DeleteRestApi"] then do
    let v ← pyGetD response_elements "id" (.str "")
    pure ("RestApi", v)
  else if isOneOf event_name ["CreatePipeline", "DeletePipeline"] then do
    let pipeline_info ← pyGetD response_elements "pipeline" (.dict [])
    let v ← pyGetD pipeline_info "pipelineName" (.str "")
    pure ("Pipeline", v)
  else if isOneOf event_name ["CreateProject", "DeleteProject", "UpdateProject"] then do
    let project_info ← pyGetD response_elements "project" (.dict [])
    let v ← pyGetD project_info "projectName" (.str "")
    pure ("Project", v)
  else if isOneOf event_name ["CreateApplication", "DeleteApplication"] then do
    let application_info ← pyGetD response_elements "application" (.dict [])
    let v ← pyGetD application_info "applicationName" (.str "")
    pure ("Application", v)
  else if isOneOf event_name ["CreateHostedZone", "DeleteHostedZone"] then do
    let hosted_zone_info ← pyGetD response_elements "hostedZone" (.dict [])
    let v ← pyGetD hosted_zone_info "id" (.str "")
    pure ("HostedZone", v)
  else if pyEqStr event_name "CreateSecret" then do
    let v ← pyGetD request_parameters "name" (.str "")
    pure ("Secret_ID", v)
  else if pyEqStr event_name "DeleteSecret" then do
    let v ← pyGetD response_elements "name" (.str "")
    pure ("Secret_ID", v)
  else if isOneOf event_name ["CreateRepository", "DeleteRepository"] then do
    let repository_info ← pyGetD response_elements "repository" (.dict [])
    let v ← pyGetD repository_info "repositoryName" (.str "")
    pure ("Repository Name", v)
  else if isOneOf event_name ["CreateAutoScalingGroup", "DeleteAutoScalingGroup"] then do
    let v ← pyGetD response_elements "autoScalingGroupName" (.str "")
    pure ("AutoScalingGroup", v)
  else
    pure ("", .str "")

/-- All event names registered in the extraction dispatch table. -/
def registeredEventNames : List String :=
  ["TerminateInstances", "RunInstances",
   "CreateDBInstance", "DeleteDBInstance",
   "CreateLoadBalancer", "DeleteLoadBalancer",
   "CreateUser", "DeleteUser",
   "CreateGroup", "DeleteGroup",
   "CreateRole", "DeleteRole",
   "CreatePolicy", "DeletePolicy",
   "CreateCluster", "DeleteCluster",
   "CreateRestApi", "DeleteRestApi",
   "CreatePipeline", "DeletePipeline",
   "CreateProject", "DeleteProject", "UpdateProject",
   "CreateApplication", "DeleteApplication",
   "CreateHostedZone", "DeleteHostedZone",
   "CreateSecret", "DeleteSecret",
   "CreateRepository", "DeleteRepository",
   "CreateAutoScalingGroup", "DeleteAutoScalingGroup"]

/-- One lowercase hexadecimal digit. -/
def hexDigitChar (n : Nat) : Char :=
  if n < 10 then Char.ofNat (48 + n) else Char.ofNat (87 + n)

/-- Four lowercase hexadecimal digits (for JSON unicode escapes). -/
def hex4 (n : Nat) : String :=
  String.mk [hexDigitChar (n / 4096 % 16), hexDigitChar (n / 256 % 16),
             hexDigitChar (n / 16 % 16), hexDigitChar (n % 16)]

/-- JSON escaping of one character, following `json.dumps` with its
default `ensure_ascii=True` (ASCII printable characters pass through,
everything else becomes an escape, astral characters a surrogate
pair). -/
def jsonEscapeChar (c : Char) : String :=
  if c = '"' then "\\\""
  else if c = '\\' then "\\\\"
  else if c = '\n' then "\\n"
  else if c = '\t' then "\\t"
  else if c = '\r' then "\\r"
  else if c.toNat == 8 then "\\b"
  else if c.toNat == 12 then "\\f"
  else if c.toNat < 32 then "\\u" ++ hex4 c.toNat
  else if c.toNat < 127 then String.singleton c
  else if c.toNat < 65536 then "\\u" ++ hex4 c.toNat
  else
    "\\u" ++ hex4 (55296 + (c.toNat - 65536) / 1024) ++
    "\\u" ++ hex4 (56320 + (c.toNat - 65536) % 1024)

/-- A JSON string literal for `s`, escaped as `json.dumps` does. -/
def jsonString (s : String) : String :=
  "\"" ++ String.join (s.toList.map jsonEscapeChar) ++ "\""

mutual

/-- Model of `json.dumps` on the JSON-like values of this program
(default separators, insertion order preserved). -/
def jsonDumps : PyVal → String
  | .none => "null"
  | .bool b => if b then "true" else "false"
  | .int n => toString n
  | .str s => jsonString s
  | .list xs => "[" ++ jsonDumpsItems xs ++ "]"
  | .dict es => "\x7b" ++ jsonDumpsEntries es ++ "\x7d"

/-- Comma-separated JSON rendering of list elements. -/
def jsonDumpsItems : List PyVal → String
  | [] => ""
  | [x] => jsonDumps x
  | x :: y :: tl => jsonDumps x ++ ", " ++ jsonDumpsItems (y :: tl)

/-- Comma-separated JSON rendering of dict entries. -/
def jsonDumpsEntries : List (String × PyVal) → String
  | [] => ""
  | [(k, v)] => jsonString k ++ ": " ++ jsonDumps v
  | (k, v) :: e :: tl => jsonString k ++ ": " ++ jsonDumps v ++ ", " ++ jsonDumpsEntries (e :: tl)

end

mutual

/-- Model of Python `repr` on the values of this program. -/
def pyRepr : PyVal → String
  | .none => "None"
  | .bool b => if b then "True" else "False"
  | .int n => toString n
  | .str s => "\x27" ++ s ++ "\x27"
  | .list xs => "[" ++ pyReprItems xs ++ "]"
  | .dict es => "\x7b" ++ pyReprEntries es ++ "\x7d"

/-- Comma-separated `repr` rendering of list elements. -/
def pyReprItems : List PyVal → String
  | [] => ""
  | [x] => pyRepr x
  | x :: y :: tl => pyRepr x ++ ", " ++ pyReprItems (y :: tl)

/-- Comma-separated `repr` rendering of dict entries. -/
def pyReprEntries : List (String × PyVal) → String
  | [] => ""
  | [(k, v)] => "\x27" ++ k ++ "\x27: " ++ pyRepr v
  | (k, v) :: e :: tl => "\x27" ++ k ++ "\x27: " ++ pyRepr v ++ ", " ++ pyReprEntries (e :: tl)

end

/-- Model of Python `str()`, as used by f-string interpolation. -/
def pyStr : PyVal → String
  | .str s => s
  | v => pyRepr v

/-- The f-string of `lambda_handler` that renders the Slack message
text: fixed header, user, event source, event name, the optional
resource line (present only when both the key and the value are
truthy), region and time. -/
def renderText (user_name event_source event_name : PyVal)
    (resourceKey : String) (resourceValue : PyVal)
    (aws_region event_time : PyVal) : String :=
  "*AWS Infrastructure Change Detected! 🚨*\n" ++
  "👤 User: `" ++ pyStr user_name ++ "`\n" ++
  "🛠 Event Source: `" ++ pyStr event_source ++ "`\n" ++
  "🛠 Event: `" ++ pyStr event_name ++ "`\n" ++
  (if !(resourceKey == "") && pyTruthy resourceValue then
    "🛠 " ++ resourceKey ++ ": `" ++ pyStr resourceValue ++ "`\n"
  else "") ++
  "🌍 Region: `" ++ pyStr aws_region ++ "`\n" ++
  "🕒 Time: `" ++ pyStr event_time ++ "`\n"

/-- The observable actions of one invocation: a call of
`extract_resource_details`, an invocation of
`send_slack_notification`, and an actual outbound HTTP post (with the
transport outcome: response status, or the message of the caught
exception). -/
inductive PyAction where
  | extractCall (detail : PyVal) (event_name : PyVal) : PyAction
  | slackInvoke (message : PyVal) : PyAction
  | httpPost (message : PyVal) (outcome : Except String Nat) : PyAction

/-- The ambient environment of the Lambda: the `SLACK_WEBHOOK_URL`
environment variable (empty string when unset, as `os.environ.get`
defaults it) and the network transport (the outcome `urlopen` would
produce for a given message). -/
structure Config where
  SLACK_WEBHOOK_URL : String
  transport : PyVal → Except String Nat

/-- Tail of the scheme scan: after at least one valid leading
character, a colon before any slash completes a scheme. -/
def schemeTail : List Char → Bool
  | [] => false
  | c :: rest =>
    if c == Char.ofNat 58 then true
    else if c == Char.ofNat 47 then false
    else schemeTail rest

/-- Whether `urllib.request.Request` accepts the URL: its
`_splittype` matches one or more characters other than slash and
colon, followed by a colon (regex `([^/:]+):`); without such a scheme
the constructor raises `ValueError: unknown url type`. -/
def hasUrlScheme (url : String) : Bool :=
  match url.toList with
  | [] => false
  | c :: rest =>
    if c == Char.ofNat 58 || c == Char.ofNat 47 then false
    else schemeTail rest

/-- Embedding of `send_slack_notification(message)`: with no webhook
URL configured it logs and returns without any outbound call.
Otherwise `urllib.request.Request(SLACK_WEBHOOK_URL, ...)` is built
OUTSIDE the try block of the source, so a URL without a scheme makes
it raise `ValueError: unknown url type`, which escapes this function
(only the caller catches it); with a well-formed URL one post is
performed and a transport failure is caught and logged, never raised.
On success the returned list records the posts made. -/
def send_slack_notification (cfg : Config) (message : PyVal) :
    Except String (List PyAction) :=
  if cfg.SLACK_WEBHOOK_URL == "" then .ok []
  else if !(hasUrlScheme cfg.SLACK_WEBHOOK_URL) then
    .error ("unknown url type: \x27" ++ cfg.SLACK_WEBHOOK_URL ++ "\x27")
  else .ok [PyAction.httpPost message (cfg.transport message)]

/-- A handler result dict with the given status code and body. -/
def mkResp (code : Int) (body : String) : PyVal :=
  .dict [("statusCode", .int code), ("body", .str body)]

/-- The filtered-out ("skipped") result of `lambda_handler`. -/
def skippedResult : PyVal :=
  mkResp 200 "User not in notify list."

/-- The result `lambda_handler` builds in its `except` clause. -/
def err500 (e : String) : PyVal :=
  mkResp 500 ("Error processing event: " ++ e)

/-- The success result of `lambda_handler`: status 200 with the
JSON-encoded message body. -/
def successResult (slack_message : PyVal) : PyVal :=
  mkResp 200 (jsonDumps (.dict [("message", .str "Notification sent"),
                                ("slack_message", slack_message)]))

/-- Actor resolution, lines 108 to 110 of the source: prefer
`userName`, fall back to `principalId` (default `UnknownUser`), and
when the resolved value contains a colon keep the part after the last
one. -/
def resolveActor (user_identity : PyVal) : Except String PyVal := do
  let u0 ← pyGet1 user_identity "userName"
  let user_name ←
    if pyTruthy u0 then pure u0
    else pyGetD user_identity "principalId" (.str "UnknownUser")
  let hasColon ← pyInOp ":" user_name
  if hasColon then pySplitColonLast user_name else pure user_name

/-- Envelope parsing of `lambda_handler`, lines 100 to 110: the
defaulting reads of `detail` and its fields, then actor resolution. -/
def hParse (event : PyVal) :
    Except String (PyVal × PyVal × PyVal × PyVal × PyVal × PyVal) := do
  let detail ← pyGetD event "detail" (.dict [])
  let event_name ← pyGetD detail "eventName" (.str "UnknownEvent")
  let user_identity ← pyGetD detail "userIdentity" (.dict [])
  let aws_region ← pyGetD detail "awsRegion" (.str "Unknown")
  let event_time ← pyGetD detail "eventTime" (.str "Unknown")
  let event_source ← pyGetD detail "eventSource" (.str "Unknown")
  let user_name ← resolveActor user_identity
  pure (detail, event_name, aws_region, event_time, event_source, user_name)

/-- Embedding of `lambda_handler(event, context)`: envelope parsing,
the notification filter, resource extraction, message rendering,
delivery, and the top-level `except` that converts any raised
exception into a 500 result.  Returns the result dict together with
the trace of observable actions. -/
def lambda_handler (cfg : Config) (event : PyVal) : PyVal × List PyAction :=
  match hParse event with
  | .error e => (err500 e, [])
  | .ok (detail, event_name, aws_region, event_time, event_source, user_name) =>
    match pyInOp "@xyz.com" user_name with
    | .error e => (err500 e, [])
    | .ok false => (skippedResult, [])
    | .ok true =>
      match extract_resource_details detail event_name with
      | .error e => (err500 e, [PyAction.extractCall detail event_name])
      | .ok (resourceKey, resourceValue) =>
        let slack_message : PyVal :=
          .dict [("text", .str (renderText user_name event_source event_name
                                  resourceKey resourceValue aws_region event_time))]
        match send_slack_notification cfg slack_message with
        | .error e => (err500 e,
            [PyAction.extractCall detail event_name,
             PyAction.slackInvoke slack_message])
        | .ok posts =>
          (successResult slack_message,
           PyAction.extractCall detail event_name ::
           PyAction.slackInvoke slack_message :: posts)

/-- Whether a value is a Python dict. -/
def isDictV : PyVal → Bool
  | .dict _ => true
  | _ => false

/-- Whether a value is a list that is empty or whose first element is
a dict (the shape the first-element extraction rules need). -/
def headDictOrNil : PyVal → Bool
  | .list [] => true
  | .list (.dict _ :: _) => true
  | _ => false

/-- The value under `k`, if present, is a dict. -/
def keyDictOk (es : List (String × PyVal)) (k : String) : Bool :=
  match es.lookup k with
  | Option.none => true
  | some v => isDictV v

/-- The value under `k`, if present, is a well-shaped list. -/
def keyListOk (es : List (String × PyVal)) (k : String) : Bool :=
  match es.lookup k with
  | Option.none => true
  | some v => headDictOrNil v

/-- The `instancesSet` value, if present, is a dict whose `items`
value, if present, is a well-shaped list. -/
def keyInstOk (es : List (String × PyVal)) : Bool :=
  match es.lookup "instancesSet" with
  | Option.none => true
  | some (.dict iset) => keyListOk iset "items"
  | some _ => false

/-- All present info fields of a `responseElements` dict have the
types the extraction rules expect. -/
def resWellTyped (res : List (String × PyVal)) : Bool :=
  keyDictOk res "user" && keyDictOk res "group" && keyDictOk res "role" &&
  keyDictOk res "policy" && keyDictOk res "cluster" && keyDictOk res "pipeline" &&
  keyDictOk res "project" && keyDictOk res "application" &&
  keyDictOk res "hostedZone" && keyDictOk res "repository" &&
  keyInstOk res && keyListOk res "loadBalancers"

/-- A detail mapping all of whose present nested fields have the type
the extraction rules expect: `responseElements` and
`requestParameters` are dicts when present, the per-event info fields
are dicts when present, and the list-valued fields are lists whose
first element (if any) is a dict. -/
def detailWellTyped (detail : PyVal) : Bool :=
  match detail with
  | .dict des =>
    (match des.lookup "responseElements" with
     | Option.none => true
     | some (.dict res) => resWellTyped res
     | some _ => false) &&
    keyDictOk des "requestParameters"
  | _ => false

/-- Whether an `Except` computation succeeded. -/
def isOkE {α : Type} (x : Except String α) : Bool :=
  match x with
  | .ok _ => true
  | .error _ => false

/-- The substring after the last colon (the whole string when it has
no colon), as computed by the handler via `split(":")[-1]`. -/
def afterLastColon (s : String) : String :=
  String.mk ((chSplitOn (Char.ofNat 58) s.toList).getLastD [])

/-- A successful defaulting `get` means the receiver was a dict. -/
theorem pyGetD_ok (v : PyVal) (k : String) (d x : PyVal)
    (h : pyGetD v k d = .ok x) :
    ∃ es, v = .dict es ∧ x = (es.lookup k).getD d := by
  cases v <;> simp [pyGetD] at h
  case dict es => exact ⟨es, rfl, h.symm⟩

/-- Bind of a successful `Except` computation reduces. -/
theorem ebind_ok {α β : Type} (x : α) (f : α → Except String β) :
    Except.ok x >>= f = f x := rfl

/-- Bind of a failed `Except` computation propagates the error. -/
theorem ebind_err {α β : Type} (e : String) (f : α → Except String β) :
    (Except.error e : Except String α) >>= f = .error e := rfl

/-- Pure in the `Except` monad is `ok`. -/
theorem epure_eq {α : Type} (x : α) : (pure x : Except String α) = .ok x := rfl

/-- Shared skip lemma: when the resolved actor is a string not
containing the marker, the handler returns the skipped result and
performs no action at all. -/
theorem skip_of_actor (cfg : Config) (event : PyVal)
    (des : List (String × PyVal)) (u : String)
    (hdet : pyGetD event "detail" (.dict []) = .ok (.dict des))
    (hres : resolveActor ((des.lookup "userIdentity").getD (.dict [])) = .ok (.str u))
    (hfil : pyContainsStr u "@xyz.com" = false) :
    lambda_handler cfg event = (skippedResult, []) := by
  unfold lambda_handler hParse
  rw [hdet]
  simp only [ebind_ok]
  simp only [pyGetD, ebind_ok]
  rw [hres]
  simp only [ebind_ok, epure_eq, pyInOp, hfil]

/-- C1: for every incoming event whose resolved actor string does not
contain the domain marker "@xyz.com", `lambda_handler` performs no
resource extraction, never invokes `send_slack_notification` (the
action trace is empty), and returns the skipped result
statusCode 200 / body "User not in notify list.". -/
theorem C1_filter_skips_everything (cfg : Config) (event : PyVal)
    (des : List (String × PyVal)) (u : String)
    (hdet : pyGetD event "detail" (.dict []) = .ok (.dict des))
    (hres : resolveActor ((des.lookup "userIdentity").getD (.dict [])) = .ok (.str u))
    (hfil : pyContainsStr u "@xyz.com" = false) :
    lambda_handler cfg event = (skippedResult, []) :=
  skip_of_actor cfg event des u hdet hres hfil

/-- C1 witness: a concrete event whose actor is bob@other.com is
skipped with an empty action trace. -/
theorem C1_filter_skips_everything_witness :
    lambda_handler ⟨"https://example.com/hook", fun _ => .ok 200⟩
      (.dict [("detail", .dict [("userIdentity", .dict [("userName", .str "bob@other.com")])])]) =
      (skippedResult, []) :=
  C1_filter_skips_everything ⟨"https://example.com/hook", fun _ => .ok 200⟩
    (.dict [("detail", .dict [("userIdentity", .dict [("userName", .str "bob@other.com")])])])
    [("userIdentity", .dict [("userName", .str "bob@other.com")])]
    "bob@other.com" rfl rfl rfl

/-- C2: whatever the input event, `lambda_handler` returns a
well-formed result dict and never propagates an exception: the result
is statusCode 200 with some body, or statusCode 500 with the message
of the caught exception in the body. -/
theorem C2_handler_never_raises (cfg : Config) (event : PyVal) :
    (∃ b, (lambda_handler cfg event).1 = mkResp 200 b) ∨
    (∃ e, (lambda_handler cfg event).1 = mkResp 500 ("Error processing event: " ++ e)) := by
  unfold lambda_handler
  cases h1 : hParse event with
  | error e => exact .inr ⟨e, by simp [h1, err500]⟩
  | ok t =>
    obtain ⟨detail, event_name, aws_region, event_time, event_source, user_name⟩ := t
    cases h2 : pyInOp "@xyz.com" user_name with
    | error e => exact .inr ⟨e, by simp [h1, h2, err500]⟩
    | ok b =>
      cases b with
      | false =>
        exact .inl ⟨"User not in notify list.", by simp [h1, h2, skippedResult]⟩
      | true =>
        cases h3 : extract_resource_details detail event_name with
        | error e => exact .inr ⟨e, by simp [h1, h2, h3, err500]⟩
        | ok kv =>
          obtain ⟨rk, rv⟩ := kv
          cases h4 : send_slack_notification cfg (.dict [("text",
              .str (renderText user_name event_source event_name rk rv
                aws_region event_time))]) with
          | error e => exact .inr ⟨e, by simp [h1, h2, h3, h4, err500]⟩
          | ok posts =>
            refine .inl ⟨jsonDumps (.dict [("message", .str "Notification sent"),
              ("slack_message", .dict [("text", .str (renderText user_name event_source
                event_name rk rv aws_region event_time))])]), ?_⟩
            simp [h1, h2, h3, h4, successResult]

/-- A key whose present value is a dict reads back as a dict under the
defaulting lookup. -/
theorem getD_dict_of_keyDictOk (res : List (String × PyVal)) (k : String)
    (h : keyDictOk res k = true) :
    ∃ es, (res.lookup k).getD (.dict []) = .dict es := by
  cases hl : res.lookup k with
  | none => exact ⟨[], rfl⟩
  | some v =>
    rw [keyDictOk, hl] at h
    cases v <;> simp [isDictV] at h
    case dict es => exact ⟨es, rfl⟩

/-- A key whose present value is a well-shaped list reads back as an
empty list or a list with a dict head. -/
theorem getD_list_of_keyListOk (res : List (String × PyVal)) (k : String)
    (h : keyListOk res k = true) :
    (res.lookup k).getD (.list []) = .list [] ∨
    ∃ d tl, (res.lookup k).getD (.list []) = .list (.dict d :: tl) := by
  cases hl : res.lookup k with
  | none => exact .inl rfl
  | some v =>
    rw [keyListOk, hl] at h
    match v, h with
    | .list [], _ => exact .inl rfl
    | .list (.dict d :: tl), _ => exact .inr ⟨d, tl, rfl⟩

/-- An info-dict extraction rule (read a dict field, then a string
field inside it) succeeds on well-typed data. -/
theorem info_branch_ok (res : List (String × PyVal)) (k k2 : String) (label : String)
    (h : keyDictOk res k = true) :
    ∃ p, (do
      let info ← pyGetD (.dict res) k (.dict [])
      let v ← pyGetD info k2 (.str "")
      pure (label, v) : Except String (String × PyVal)) = .ok p := by
  obtain ⟨es, hes⟩ := getD_dict_of_keyDictOk res k h
  exact ⟨(label, (es.lookup k2).getD (.str "")),
    by simp [pyGetD, hes, ebind_ok, epure_eq]⟩

/-- A direct-value extraction rule (read one string-defaulted field)
always succeeds. -/
theorem direct_branch_ok (es : List (String × PyVal)) (k label : String) :
    ∃ p, (do
      let v ← pyGetD (.dict es) k (.str "")
      pure (label, v) : Except String (String × PyVal)) = .ok p :=
  ⟨(label, (es.lookup k).getD (.str "")), by simp [pyGetD, ebind_ok, epure_eq]⟩

/-- A first-of-list extraction rule succeeds on a well-shaped list
field. -/
theorem list_branch_ok (res : List (String × PyVal)) (k k2 label : String)
    (h : keyListOk res k = true) :
    ∃ p, (do
      let l ← pyGetD (.dict res) k (.list [])
      if pyTruthy l then do
        let x0 ← pyIndex0 l
        let v ← pyGetD x0 k2 (.str "")
        pure (label, v)
      else pure ("", .str "") : Except String (String × PyVal)) = .ok p := by
  rcases getD_list_of_keyListOk res k h with h0 | ⟨d, tl, h0⟩
  · exact ⟨("", .str ""), by simp [pyGetD, h0, ebind_ok, pyTruthy, epure_eq]⟩
  · exact ⟨(label, (d.lookup k2).getD (.str "")),
      by simp [pyGetD, h0, ebind_ok, pyTruthy, pyIndex0, epure_eq]⟩

/-- The instance-list extraction rule succeeds on a well-shaped
`instancesSet`. -/
theorem inst_branch_ok (res : List (String × PyVal)) (h : keyInstOk res = true) :
    ∃ p, (do
      let iset ← pyGetD (.dict res) "instancesSet" (.dict [])
      let items ← pyGetD iset "items" (.list [])
      if pyTruthy items then do
        let x0 ← pyIndex0 items
        let v ← pyGetD x0 "instanceId" (.str "")
        pure ("Instance_ID", v)
      else pure ("", .str "") : Except String (String × PyVal)) = .ok p := by
  cases hl : res.lookup "instancesSet" with
  | none => exact ⟨("", .str ""), by simp [pyGetD, hl, ebind_ok, pyTruthy, epure_eq]⟩
  | some v =>
    rw [keyInstOk, hl] at h
    match v, h with
    | .dict iset, h =>
      rcases getD_list_of_keyListOk iset "items" h with h0 | ⟨d, tl, h0⟩
      · exact ⟨("", .str ""), by simp [pyGetD, hl, h0, ebind_ok, pyTruthy, epure_eq]⟩
      · exact ⟨("Instance_ID", (d.lookup "instanceId").getD (.str "")),
          by simp [pyGetD, hl, h0, ebind_ok, pyTruthy, pyIndex0, epure_eq]⟩

/-- Success of an `Except` computation, as an existential. -/
theorem isOkE_iff {α : Type} (x : Except String α) :
    isOkE x = true ↔ ∃ p, x = .ok p := by
  cases x <;> simp [isOkE]

/-- Core of the amended C3: on a detail dict whose `responseElements`
and `requestParameters` read back as well-typed dicts, extraction
succeeds for every event name. -/
theorem extract_ok_core (des res rp : List (String × PyVal))
    (hre : (des.lookup "responseElements").getD (.dict []) = .dict res)
    (hrp : (des.lookup "requestParameters").getD (.dict []) = .dict rp)
    (hres : resWellTyped res = true)
    (event_name : PyVal) :
    ∃ p, extract_resource_details (.dict des) event_name = .ok p := by
  simp only [resWellTyped, Bool.and_eq_true] at hres
  obtain ⟨⟨⟨⟨⟨⟨⟨⟨⟨⟨⟨h1, h2⟩, h3⟩, h4⟩, h5⟩, h6⟩, h7⟩, h8⟩, h9⟩, h10⟩, h11⟩, h12⟩ := hres
  rw [← isOkE_iff]
  unfold extract_resource_details
  simp only [show pyGetD (.dict des) "responseElements" (.dict []) = Except.ok (.dict res) from
      by simp [pyGetD, hre],
    show pyGetD (.dict des) "requestParameters" (.dict []) = Except.ok (.dict rp) from
      by simp [pyGetD, hrp],
    ebind_ok]
  by_cases c1 : isOneOf event_name ["TerminateInstances", "RunInstances"] = true
  · rw [if_pos c1]; exact (isOkE_iff _).mpr (inst_branch_ok res h11)
  rw [if_neg c1]
  by_cases c2 : isOneOf event_name ["CreateDBInstance", "DeleteDBInstance"] = true
  · rw [if_pos c2]
    exact (isOkE_iff _).mpr (direct_branch_ok res "dBInstanceIdentifier" "DB_Instance_ID")
  rw [if_neg c2]
  by_cases c3 : isOneOf event_name ["CreateLoadBalancer", "DeleteLoadBalancer"] = true
  · rw [if_pos c3]
    exact (isOkE_iff _).mpr (list_branch_ok res "loadBalancers" "loadBalancerName" "LoadBalancer_ID" h12)
  rw [if_neg c3]
  by_cases c4 : isOneOf event_name ["CreateUser", "DeleteUser"] = true
  · rw [if_pos c4]; exact (isOkE_iff _).mpr (info_branch_ok res "user" "userName" "User_ID" h1)
  rw [if_neg c4]
  by_cases c5 : isOneOf event_name ["CreateGroup", "DeleteGroup"] = true
  · rw [if_pos c5]; exact (isOkE_iff _).mpr (info_branch_ok res "group" "groupName" "Group" h2)
  rw [if_neg c5]
  by_cases c6 : isOneOf event_name ["CreateRole", "DeleteRole"] = true
  · rw [if_pos c6]; exact (isOkE_iff _).mpr (info_branch_ok res "role" "roleName" "Role" h3)
  rw [if_neg c6]
  by_cases c7 : isOneOf event_name ["CreatePolicy", "DeletePolicy"] = true
  · rw [if_pos c7]; exact (isOkE_iff _).mpr (info_branch_ok res "policy" "policyName" "Policy" h4)
  rw [if_neg c7]
  by_cases c8 : isOneOf event_name ["CreateCluster", "DeleteCluster"] = true
  · rw [if_pos c8]; exact (isOkE_iff _).mpr (info_branch_ok res "cluster" "clusterName" "Cluster" h5)
  rw [if_neg c8]
  by_cases c9 : isOneOf event_name ["CreateRestApi", "DeleteRestApi"] = true
  · rw [if_pos c9]; exact (isOkE_iff _).mpr (direct_branch_ok res "id" "RestApi")
  rw [if_neg c9]
  by_cases c10 : isOneOf event_name ["CreatePipeline", "DeletePipeline"] = true
  · rw [if_pos c10]; exact (isOkE_iff _).mpr (info_branch_ok res "pipeline" "pipelineName" "Pipeline" h6)
  rw [if_neg c10]
  by_cases c11 : isOneOf event_name ["CreateProject", "DeleteProject", "UpdateProject"] = true
  · rw [if_pos c11]; exact (isOkE_iff _).mpr (info_branch_ok res "project" "projectName" "Project" h7)
  rw [if_neg c11]
  by_cases c12 : isOneOf event_name ["CreateApplication", "DeleteApplication"] = true
  · rw [if_pos c12]
    exact (isOkE_iff _).mpr (info_branch_ok res "application" "applicationName" "Application" h8)
  rw [if_neg c12]
  by_cases c13 : isOneOf event_name ["CreateHostedZone", "DeleteHostedZone"] = true
  · rw [if_pos c13]; exact (isOkE_iff _).mpr (info_branch_ok res "hostedZone" "id" "HostedZone" h9)
  rw [if_neg c13]
  by_cases c14 : pyEqStr event_name "CreateSecret" = true
  · rw [if_pos c14]; exact (isOkE_iff _).mpr (direct_branch_ok rp "name" "Secret_ID")
  rw [if_neg c14]
  by_cases c15 : pyEqStr event_name "DeleteSecret" = true
  · rw [if_pos c15]; exact (isOkE_iff _).mpr (direct_branch_ok res "name" "Secret_ID")
  rw [if_neg c15]
  by_cases c16 : isOneOf event_name ["CreateRepository", "DeleteRepository"] = true
  · rw [if_pos c16]
    exact (isOkE_iff _).mpr (info_branch_ok res "repository" "repositoryName" "Repository Name" h10)
  rw [if_neg c16]
  by_cases c17 : isOneOf event_name ["CreateAutoScalingGroup", "DeleteAutoScalingGroup"] = true
  · rw [if_pos c17]
    exact (isOkE_iff _).mpr (direct_branch_ok res "autoScalingGroupName" "AutoScalingGroup")
  rw [if_neg c17]
  rfl

/-- C3 counterexample: the claim that extraction returns normally for
every detail mapping fails on a type mismatch — with
`responseElements.instancesSet.items = [5]` (first list element not a
mapping), `extract_resource_details` raises an `AttributeError`
instead of returning. -/
theorem C3_counterexample :
    extract_resource_details
      (.dict [("responseElements", .dict [("instancesSet", .dict [("items", .list [.int 5])])])])
      (.str "RunInstances") = .error "AttributeError: object has no attribute get" := rfl

/-- C3 amended: for every event name and every detail mapping whose
present nested fields have the expected types (mappings where mappings
are expected, list fields empty or with a mapping as first element),
`extract_resource_details` returns normally; missing keys and empty
lists degrade to defaults rather than failing. -/
theorem C3_extract_total_when_welltyped (detail : PyVal)
    (h : detailWellTyped detail = true) (event_name : PyVal) :
    ∃ p, extract_resource_details detail event_name = .ok p := by
  cases detail with
  | none => exact absurd h (by simp [detailWellTyped])
  | bool b => exact absurd h (by simp [detailWellTyped])
  | int n => exact absurd h (by simp [detailWellTyped])
  | str s => exact absurd h (by simp [detailWellTyped])
  | list xs => exact absurd h (by simp [detailWellTyped])
  | dict des =>
    simp only [detailWellTyped, Bool.and_eq_true] at h
    obtain ⟨hre, hrp⟩ := h
    obtain ⟨rp, hrpd⟩ := getD_dict_of_keyDictOk des "requestParameters" hrp
    cases hl : des.lookup "responseElements" with
    | none => exact extract_ok_core des [] rp (by rw [hl]; rfl) hrpd rfl event_name
    | some v =>
      rw [hl] at hre
      cases v with
      | none => exact absurd hre (by simp)
      | bool b => exact absurd hre (by simp)
      | int n => exact absurd hre (by simp)
      | str s => exact absurd hre (by simp)
      | list xs => exact absurd hre (by simp)
      | dict res =>
        exact extract_ok_core des res rp (by rw [hl]; rfl) hrpd hre event_name

/-- C3 witness: on a concrete well-typed detail, extraction succeeds. -/
theorem C3_extract_total_when_welltyped_witness :
    detailWellTyped (.dict [("responseElements",
      .dict [("instancesSet", .dict [("items", .list [.dict [("instanceId", .str "i-1")]])])])]) = true ∧
    ∃ p, extract_resource_details (.dict [("responseElements",
        .dict [("instancesSet", .dict [("items", .list [.dict [("instanceId", .str "i-1")]])])])])
      (.str "RunInstances") = .ok p :=
  ⟨rfl, C3_extract_total_when_welltyped (.dict [("responseElements",
      .dict [("instancesSet", .dict [("items", .list [.dict [("instanceId", .str "i-1")]])])])])
    rfl (.str "RunInstances")⟩

/-- C4 counterexample: for the registered event name CreateDBInstance
with `responseElements` lacking `dBInstanceIdentifier`, the result is
not the claimed pair of two empty strings: the key label is kept. -/
theorem C4_counterexample :
    extract_resource_details (.dict [("responseElements", .dict [])])
      (.str "CreateDBInstance") = .ok ("DB_Instance_ID", .str "") ∧
    extract_resource_details (.dict [("responseElements", .dict [])])
      (.str "CreateDBInstance") ≠ .ok ("", .str "") := by
  refine ⟨rfl, ?_⟩
  intro h
  have h2 : (Except.ok (("DB_Instance_ID", PyVal.str "")) : Except String (String × PyVal)) =
      .ok ("", .str "") := h
  injection h2 with h3
  injection h3 with h4 h5
  exact (by decide : ("DB_Instance_ID" : String) ≠ "") h4

/-- C4 amended: for every registered event group, an absent expected
nested field defaults the resource value to the empty string while
the key label is retained ("DB_Instance_ID", "User_ID", ...); only
the list-guarded groups (instance run/termination and load balancers)
return ("", "") when their list resolves to empty (which covers the
absent-field case via the defaulting reads). -/
theorem C4_missing_field_defaults (des res rp : List (String × PyVal))
    (hre : (des.lookup "responseElements").getD (.dict []) = .dict res)
    (hrp : (des.lookup "requestParameters").getD (.dict []) = .dict rp) :
    (∀ (name : String) (iset : List (String × PyVal)),
      (name = "RunInstances" ∨ name = "TerminateInstances") →
      (res.lookup "instancesSet").getD (.dict []) = .dict iset →
      (iset.lookup "items").getD (.list []) = .list [] →
      extract_resource_details (.dict des) (.str name) = .ok ("", .str "")) ∧
    (∀ (name : String),
      (name = "CreateDBInstance" ∨ name = "DeleteDBInstance") →
      res.lookup "dBInstanceIdentifier" = Option.none →
      extract_resource_details (.dict des) (.str name) = .ok ("DB_Instance_ID", .str "")) ∧
    (∀ (name : String),
      (name = "CreateLoadBalancer" ∨ name = "DeleteLoadBalancer") →
      (res.lookup "loadBalancers").getD (.list []) = .list [] →
      extract_resource_details (.dict des) (.str name) = .ok ("", .str "")) ∧
    (∀ (name : String) (ies : List (String × PyVal)),
      (name = "CreateUser" ∨ name = "DeleteUser") →
      (res.lookup "user").getD (.dict []) = .dict ies →
      ies.lookup "userName" = Option.none →
      extract_resource_details (.dict des) (.str name) = .ok ("User_ID", .str "")) ∧
    (∀ (name : String) (ies : List (String × PyVal)),
      (name = "CreateGroup" ∨ name = "DeleteGroup") →
      (res.lookup "group").getD (.dict []) = .dict ies →
      ies.lookup "groupName" = Option.none →
      extract_resource_details (.dict des) (.str name) = .ok ("Group", .str "")) ∧
    (∀ (name : String) (ies : List (String × PyVal)),
      (name = "CreateRole" ∨ name = "DeleteRole") →
      (res.lookup "role").getD (.dict []) = .dict ies →
      ies.lookup "roleName" = Option.none →
      extract_resource_details (.dict des) (.str name) = .ok ("Role", .str "")) ∧
    (∀ (name : String) (ies : List (String × PyVal)),
      (name = "CreatePolicy" ∨ name = "DeletePolicy") →
      (res.lookup "policy").getD (.dict []) = .dict ies →
      ies.lookup "policyName" = Option.none →
      extract_resource_details (.dict des) (.str name) = .ok ("Policy", .str "")) ∧
    (∀ (name : String) (ies : List (String × PyVal)),
      (name = "CreateCluster" ∨ name = "DeleteCluster") →
      (res.lookup "cluster").getD (.dict []) = .dict ies →
      ies.lookup "clusterName" = Option.none →
      extract_resource_details (.dict des) (.str name) = .ok ("Cluster", .str "")) ∧
    (∀ (name : String),
      (name = "CreateRestApi" ∨ name = "DeleteRestApi") →
      res.lookup "id" = Option.none →
      extract_resource_details (.dict des) (.str name) = .ok ("RestApi", .str "")) ∧
    (∀ (name : String) (ies : List (String × PyVal)),
      (name = "CreatePipeline" ∨ name = "DeletePipeline") →
      (res.lookup "pipeline").getD (.dict []) = .dict ies →
      ies.lookup "pipelineName" = Option.none →
      extract_resource_details (.dict des) (.str name) = .ok ("Pipeline", .str "")) ∧
    (∀ (name : String) (ies : List (String × PyVal)),
      (name = "CreateProject" ∨ name = "DeleteProject" ∨ name = "UpdateProject") →
      (res.lookup "project").getD (.dict []) = .dict ies →
      ies.lookup "projectName" = Option.none →
      extract_resource_details (.dict des) (.str name) = .ok ("Project", .str "")) ∧
    (∀ (name : String) (ies : List (String × PyVal)),
      (name = "CreateApplication" ∨ name = "DeleteApplication") →
      (res.lookup "application").getD (.dict []) = .dict ies →
      ies.lookup "applicationName" = Option.none →
      extract_resource_details (.dict des) (.str name) = .ok ("Application", .str "")) ∧
    (∀ (name : String) (ies : List (String × PyVal)),
      (name = "CreateHostedZone" ∨ name = "DeleteHostedZone") →
      (res.lookup "hostedZone").getD (.dict []) = .dict ies →
      ies.lookup "id" = Option.none →
      extract_resource_details (.dict des) (.str name) = .ok ("HostedZone", .str "")) ∧
    (∀ (name : String),
      (name = "CreateSecret") →
      rp.lookup "name" = Option.none →
      extract_resource_details (.dict des) (.str name) = .ok ("Secret_ID", .str "")) ∧
    (∀ (name : String),
      (name = "DeleteSecret") →
      res.lookup "name" = Option.none →
      extract_resource_details (.dict des) (.str name) = .ok ("Secret_ID", .str "")) ∧
    (∀ (name : String) (ies : List (String × PyVal)),
      (name = "CreateRepository" ∨ name = "DeleteRepository") →
      (res.lookup "repository").getD (.dict []) = .dict ies →
      ies.lookup "repositoryName" = Option.none →
      extract_resource_details (.dict des) (.str name) = .ok ("Repository Name", .str "")) ∧
    (∀ (name : String),
      (name = "CreateAutoScalingGroup" ∨ name = "DeleteAutoScalingGroup") →
      res.lookup "autoScalingGroupName" = Option.none →
      extract_resource_details (.dict des) (.str name) = .ok ("AutoScalingGroup", .str "")) := by
  have hre2 : pyGetD (.dict des) "responseElements" (.dict []) = Except.ok (.dict res) := by
    simp [pyGetD, hre]
  have hrp2 : pyGetD (.dict des) "requestParameters" (.dict []) = Except.ok (.dict rp) := by
    simp [pyGetD, hrp]
  refine ⟨?_, ?_, ?_, ?_, ?_, ?_, ?_, ?_, ?_, ?_, ?_, ?_, ?_, ?_, ?_, ?_, ?_⟩
  · intro name iset hname hset hitems
    rcases hname with rfl | rfl <;>
    · unfold extract_resource_details
      simp only [hre2, hrp2, ebind_ok]
      rw [if_pos (by decide)]
      simp only [show pyGetD (.dict res) "instancesSet" (.dict []) =
          Except.ok (.dict iset) from by simp [pyGetD, hset],
        show pyGetD (.dict iset) "items" (.list []) =
          Except.ok (.list []) from by simp [pyGetD, hitems], ebind_ok]
      rw [if_neg (by simp [pyTruthy])]
      rfl
  · intro name hname hmiss
    rcases hname with rfl | rfl <;>
    · unfold extract_resource_details
      simp only [hre2, hrp2, ebind_ok]
      rw [if_neg (by decide), if_pos (by decide)]
      simp [pyGetD, hmiss, ebind_ok, epure_eq]
  · intro name hname hlb
    rcases hname with rfl | rfl <;>
    · unfold extract_resource_details
      simp only [hre2, hrp2, ebind_ok]
      rw [if_neg (by decide), if_neg (by decide), if_pos (by decide)]
      simp only [show pyGetD (.dict res) "loadBalancers" (.list []) =
          Except.ok (.list []) from by simp [pyGetD, hlb], ebind_ok]
      rw [if_neg (by simp [pyTruthy])]
      rfl
  · intro name ies hname hinfo hmiss
    rcases hname with rfl | rfl <;>
    · unfold extract_resource_details
      simp only [hre2, hrp2, ebind_ok]
      rw [if_neg (by decide), if_neg (by decide), if_neg (by decide), if_pos (by decide)]
      simp only [show pyGetD (.dict res) "user" (.dict []) =
          Except.ok (.dict ies) from by simp [pyGetD, hinfo], ebind_ok]
      simp [pyGetD, hmiss, ebind_ok, epure_eq]
  · intro name ies hname hinfo hmiss
    rcases hname with rfl | rfl <;>
    · unfold extract_resource_details
      simp only [hre2, hrp2, ebind_ok]
      rw [if_neg (by decide), if_neg (by decide), if_neg (by decide), if_neg (by decide), if_pos (by decide)]
      simp only [show pyGetD (.dict res) "group" (.dict []) =
          Except.ok (.dict ies) from by simp [pyGetD, hinfo], ebind_ok]
      simp [pyGetD, hmiss, ebind_ok, epure_eq]
  · intro name ies hname hinfo hmiss
    rcases hname with rfl | rfl <;>
    · unfold extract_resource_details
      simp only [hre2, hrp2, ebind_ok]
      rw [if_neg (by decide), if_neg (by decide), if_neg (by decide), if_neg (by decide), if_neg (by decide), if_pos (by decide)]
      simp only [show pyGetD (.dict res) "role" (.dict []) =
          Except.ok (.dict ies) from by simp [pyGetD, hinfo], ebind_ok]
      simp [pyGetD, hmiss, ebind_ok, epure_eq]
  · intro name ies hname hinfo hmiss
    rcases hname with rfl | rfl <;>
    · unfold extract_resource_details
      simp only [hre2, hrp2, ebind_ok]
      rw [if_neg (by decide), if_neg (by decide), if_neg (by decide), if_neg (by decide), if_neg (by decide), if_neg (by decide), if_pos (by decide)]
      simp only [show pyGetD (.dict res) "policy" (.dict []) =
          Except.ok (.dict ies) from by simp [pyGetD, hinfo], ebind_ok]
      simp [pyGetD, hmiss, ebind_ok, epure_eq]
  · intro name ies hname hinfo hmiss
    rcases hname with rfl | rfl <;>
    · unfold extract_resource_details
      simp only [hre2, hrp2, ebind_ok]
      rw [if_neg (by decide), if_neg (by decide), if_neg (by decide), if_neg (by decide), if_neg (by decide), if_neg (by decide), if_neg (by decide), if_pos (by decide)]
      simp only [show pyGetD (.dict res) "cluster" (.dict []) =
          Except.ok (.dict ies) from by simp [pyGetD, hinfo], ebind_ok]
      simp [pyGetD, hmiss, ebind_ok, epure_eq]
  · intro name hname hmiss
    rcases hname with rfl | rfl <;>
    · unfold extract_resource_details
      simp only [hre2, hrp2, ebind_ok]
      rw [if_neg (by decide), if_neg (by decide), if_neg (by decide), if_neg (by decide), if_neg (by decide), if_neg (by decide), if_neg (by decide), if_neg (by decide), if_pos (by decide)]
      simp [pyGetD, hmiss, ebind_ok, epure_eq]
  · intro name ies hname hinfo hmiss
    rcases hname with rfl | rfl <;>
    · unfold extract_resource_details
      simp only [hre2, hrp2, ebind_ok]
      rw [if_neg (by decide), if_neg (by decide), if_neg (by decide), if_neg (by decide), if_neg (by decide), if_neg (by decide), if_neg (by decide), if_neg (by decide), if_neg (by decide), if_pos (by decide)]
      simp only [show pyGetD (.dict res) "pipeline" (.dict []) =
          Except.ok (.dict ies) from by simp [pyGetD, hinfo], ebind_ok]
      simp [pyGetD, hmiss, ebind_ok, epure_eq]
  · intro name ies hname hinfo hmiss
    rcases hname with rfl | rfl | rfl <;>
    · unfold extract_resource_details
      simp only [hre2, hrp2, ebind_ok]
      rw [if_neg (by decide), if_neg (by decide), if_neg (by decide), if_neg (by decide), if_neg (by decide), if_neg (by decide), if_neg (by decide), if_neg (by decide), if_neg (by decide), if_neg (by decide), if_pos (by decide)]
      simp only [show pyGetD (.dict res) "project" (.dict []) =
          Except.ok (.dict ies) from by simp [pyGetD, hinfo], ebind_ok]
      simp [pyGetD, hmiss, ebind_ok, epure_eq]
  · intro name ies hname hinfo hmiss
    rcases hname with rfl | rfl <;>
    · unfold extract_resource_details
      simp only [hre2, hrp2, ebind_ok]
      rw [if_neg (by decide), if_neg (by decide), if_neg (by decide), if_neg (by decide), if_neg (by decide), if_neg (by decide), if_neg (by decide), if_neg (by decide), if_neg (by decide), if_neg (by decide), if_neg (by decide), if_pos (by decide)]
      simp only [show pyGetD (.dict res) "application" (.dict []) =
          Except.ok (.dict ies) from by simp [pyGetD, hinfo], ebind_ok]
      simp [pyGetD, hmiss, ebind_ok, epure_eq]
  · intro name ies hname hinfo hmiss
    rcases hname with rfl | rfl <;>
    · unfold extract_resource_details
      simp only [hre2, hrp2, ebind_ok]
      rw [if_neg (by decide), if_neg (by decide), if_neg (by decide), if_neg (by decide), if_neg (by decide), if_neg (by decide), if_neg (by decide), if_neg (by decide), if_neg (by decide), if_neg (by decide), if_neg (by decide), if_neg (by decide), if_pos (by decide)]
      simp only [show pyGetD (.dict res) "hostedZone" (.dict []) =
          Except.ok (.dict ies) from by simp [pyGetD, hinfo], ebind_ok]
      simp [pyGetD, hmiss, ebind_ok, epure_eq]
  · intro name hname hmiss
    subst hname
    unfold extract_resource_details
    simp only [hre2, hrp2, ebind_ok]
    rw [if_neg (by decide), if_neg (by decide), if_neg (by decide), if_neg (by decide), if_neg (by decide), if_neg (by decide), if_neg (by decide), if_neg (by decide), if_neg (by decide), if_neg (by decide), if_neg (by decide), if_neg (by decide), if_neg (by decide), if_pos (by decide)]
    simp [pyGetD, hmiss, ebind_ok, epure_eq]
  · intro name hname hmiss
    subst hname
    unfold extract_resource_details
    simp only [hre2, hrp2, ebind_ok]
    rw [if_neg (by decide), if_neg (by decide), if_neg (by decide), if_neg (by decide), if_neg (by decide), if_neg (by decide), if_neg (by decide), if_neg (by decide), if_neg (by decide), if_neg (by decide), if_neg (by decide), if_neg (by decide), if_neg (by decide), if_neg (by decide), if_pos (by decide)]
    simp [pyGetD, hmiss, ebind_ok, epure_eq]
  · intro name ies hname hinfo hmiss
    rcases hname with rfl | rfl <;>
    · unfold extract_resource_details
      simp only [hre2, hrp2, ebind_ok]
      rw [if_neg (by decide), if_neg (by decide), if_neg (by decide), if_neg (by decide), if_neg (by decide), if_neg (by decide), if_neg (by decide), if_neg (by decide), if_neg (by decide), if_neg (by decide), if_neg (by decide), if_neg (by decide), if_neg (by decide), if_neg (by decide), if_neg (by decide), if_pos (by decide)]
      simp only [show pyGetD (.dict res) "repository" (.dict []) =
          Except.ok (.dict ies) from by simp [pyGetD, hinfo], ebind_ok]
      simp [pyGetD, hmiss, ebind_ok, epure_eq]
  · intro name hname hmiss
    rcases hname with rfl | rfl <;>
    · unfold extract_resource_details
      simp only [hre2, hrp2, ebind_ok]
      rw [if_neg (by decide), if_neg (by decide), if_neg (by decide), if_neg (by decide), if_neg (by decide), if_neg (by decide), if_neg (by decide), if_neg (by decide), if_neg (by decide), if_neg (by decide), if_neg (by decide), if_neg (by decide), if_neg (by decide), if_neg (by decide), if_neg (by decide), if_neg (by decide), if_pos (by decide)]
      simp [pyGetD, hmiss, ebind_ok, epure_eq]

/-- C4 witness: a concrete detail whose responseElements lacks
dBInstanceIdentifier yields ("DB_Instance_ID", "") for
DeleteDBInstance. -/
theorem C4_missing_field_defaults_witness :
    extract_resource_details (.dict [("responseElements", .dict [("x", .int 1)])])
      (.str "DeleteDBInstance") = .ok ("DB_Instance_ID", .str "") :=
  (C4_missing_field_defaults [("responseElements", .dict [("x", .int 1)])]
      [("x", .int 1)] [] rfl rfl).2.1 "DeleteDBInstance" (Or.inr rfl) rfl

/-- Membership in a sub-group is impossible for a name outside the
registered table. -/
theorem isOneOf_str_false (name : String) (g : List String)
    (hsub : ∀ x ∈ g, x ∈ registeredEventNames) (h : name ∉ registeredEventNames) :
    isOneOf (.str name) g = false := by
  simp only [isOneOf]
  cases hc : g.contains name with
  | false => rfl
  | true => exact absurd (hsub name (List.mem_of_elem_eq_true hc)) h

/-- String inequality makes the Python equality test false. -/
theorem pyEqStr_str_false (name s : String) (h : ¬ name = s) :
    pyEqStr (.str name) s = false := by
  simp only [pyEqStr]
  exact beq_eq_false_iff_ne.mpr h

/-- C5: for every event name outside the registered extraction table
and every detail mapping, `extract_resource_details` returns exactly
("", ""). -/
theorem C5_unregistered (name : String) (hname : name ∉ registeredEventNames)
    (des : List (String × PyVal)) :
    extract_resource_details (.dict des) (.str name) = .ok ("", .str "") := by
  have hs : ∀ g : List String, (∀ x ∈ g, x ∈ registeredEventNames) →
      isOneOf (.str name) g = false := fun g hg => isOneOf_str_false name g hg hname
  have hcs : pyEqStr (.str name) "CreateSecret" = false := by
    refine pyEqStr_str_false name _ fun e => hname ?_
    rw [e]; decide
  have hds : pyEqStr (.str name) "DeleteSecret" = false := by
    refine pyEqStr_str_false name _ fun e => hname ?_
    rw [e]; decide
  unfold extract_resource_details
  simp only [show pyGetD (.dict des) "responseElements" (.dict []) =
      Except.ok ((des.lookup "responseElements").getD (.dict [])) from by simp [pyGetD],
    show pyGetD (.dict des) "requestParameters" (.dict []) =
      Except.ok ((des.lookup "requestParameters").getD (.dict [])) from by simp [pyGetD],
    ebind_ok]
  rw [if_neg (by simp [hs ["TerminateInstances", "RunInstances"] (by decide)]),
    if_neg (by simp [hs ["CreateDBInstance", "DeleteDBInstance"] (by decide)]),
    if_neg (by simp [hs ["CreateLoadBalancer", "DeleteLoadBalancer"] (by decide)]),
    if_neg (by simp [hs ["CreateUser", "DeleteUser"] (by decide)]),
    if_neg (by simp [hs ["CreateGroup", "DeleteGroup"] (by decide)]),
    if_neg (by simp [hs ["CreateRole", "DeleteRole"] (by decide)]),
    if_neg (by simp [hs ["CreatePolicy", "DeletePolicy"] (by decide)]),
    if_neg (by simp [hs ["CreateCluster", "DeleteCluster"] (by decide)]),
    if_neg (by simp [hs ["CreateRestApi", "DeleteRestApi"] (by decide)]),
    if_neg (by simp [hs ["CreatePipeline", "DeletePipeline"] (by decide)]),
    if_neg (by simp [hs ["CreateProject", "DeleteProject", "UpdateProject"] (by decide)]),
    if_neg (by simp [hs ["CreateApplication", "DeleteApplication"] (by decide)]),
    if_neg (by simp [hs ["CreateHostedZone", "DeleteHostedZone"] (by decide)]),
    if_neg (by simp [hcs]),
    if_neg (by simp [hds]),
    if_neg (by simp [hs ["CreateRepository", "DeleteRepository"] (by decide)]),
    if_neg (by simp [hs ["CreateAutoScalingGroup", "DeleteAutoScalingGroup"] (by decide)])]
  rfl

/-- C5 witness: the unregistered event name UnknownThing yields
("", "") on a concrete detail. -/
theorem C5_unregistered_witness :
    extract_resource_details (.dict [("responseElements", .dict [("id", .str "abc")])])
      (.str "UnknownThing") = .ok ("", .str "") :=
  C5_unregistered "UnknownThing" (by decide) [("responseElements", .dict [("id", .str "abc")])]

/-- C6: for RunInstances / TerminateInstances, when
`detail.responseElements.instancesSet.items` resolves to a list, an
empty list yields ("", "") and a list whose first element is a mapping
yields ("Instance_ID", v) with v that mapping's instanceId field
(defaulted to the empty string when absent). -/
theorem C6_instances (des res iset : List (String × PyVal)) (items : List PyVal) (name : String)
    (hname : name = "RunInstances" ∨ name = "TerminateInstances")
    (hre : (des.lookup "responseElements").getD (.dict []) = .dict res)
    (hset : (res.lookup "instancesSet").getD (.dict []) = .dict iset)
    (hitems : (iset.lookup "items").getD (.list []) = .list items) :
    (items = [] → extract_resource_details (.dict des) (.str name) = .ok ("", .str "")) ∧
    (∀ d tl, items = .dict d :: tl →
      extract_resource_details (.dict des) (.str name) =
        .ok ("Instance_ID", (d.lookup "instanceId").getD (.str ""))) := by
  rcases hname with rfl | rfl <;>
  · constructor
    · intro h0
      subst h0
      unfold extract_resource_details
      simp only [show pyGetD (.dict des) "responseElements" (.dict []) =
          Except.ok (.dict res) from by simp [pyGetD, hre],
        show pyGetD (.dict des) "requestParameters" (.dict []) =
          Except.ok ((des.lookup "requestParameters").getD (.dict [])) from by simp [pyGetD],
        ebind_ok]
      rw [if_pos (by decide)]
      simp only [show pyGetD (.dict res) "instancesSet" (.dict []) =
          Except.ok (.dict iset) from by simp [pyGetD, hset],
        show pyGetD (.dict iset) "items" (.list []) =
          Except.ok (.list []) from by simp [pyGetD, hitems],
        ebind_ok]
      rw [if_neg (by simp [pyTruthy])]
      rfl
    · intro d tl h0
      subst h0
      unfold extract_resource_details
      simp only [show pyGetD (.dict des) "responseElements" (.dict []) =
          Except.ok (.dict res) from by simp [pyGetD, hre],
        show pyGetD (.dict des) "requestParameters" (.dict []) =
          Except.ok ((des.lookup "requestParameters").getD (.dict [])) from by simp [pyGetD],
        ebind_ok]
      rw [if_pos (by decide)]
      simp only [show pyGetD (.dict res) "instancesSet" (.dict []) =
          Except.ok (.dict iset) from by simp [pyGetD, hset],
        show pyGetD (.dict iset) "items" (.list []) =
          Except.ok (.list (.dict d :: tl)) from by simp [pyGetD, hitems],
        ebind_ok]
      rw [if_pos (by simp [pyTruthy])]
      simp [pyIndex0, pyGetD, ebind_ok, epure_eq]

/-- C6 witness: the spec scenario with one instance in the list. -/
theorem C6_instances_witness :
    extract_resource_details (.dict [("responseElements", .dict [("instancesSet",
        .dict [("items", .list [.dict [("instanceId", .str "i-0abc")]])])])])
      (.str "RunInstances") = .ok ("Instance_ID", .str "i-0abc") :=
  Eq.trans
    ((C6_instances
      [("responseElements", .dict [("instancesSet",
        .dict [("items", .list [.dict [("instanceId", .str "i-0abc")]])])])]
      [("instancesSet", .dict [("items", .list [.dict [("instanceId", .str "i-0abc")]])])]
      [("items", .list [.dict [("instanceId", .str "i-0abc")]])]
      [.dict [("instanceId", .str "i-0abc")]] "RunInstances"
      (Or.inl rfl) rfl rfl rfl).2 [("instanceId", .str "i-0abc")] [] rfl) rfl

/-- C7: actor resolution prefers the userName field; with userName
absent the principalId field is used as a fallback; and the chosen
string is trimmed to the part after its last colon when it contains a
colon — in particular the ARN example of the spec resolves to
role/xyz.com-svc. -/
theorem C7_actor_resolution :
    (∀ (s : String), s ≠ "" → ∀ (p : PyVal),
      resolveActor (.dict [("userName", .str s), ("principalId", p)]) =
        .ok (.str (if pyContainsStr s ":" then afterLastColon s else s))) ∧
    (∀ (q : String),
      resolveActor (.dict [("principalId", .str q)]) =
        .ok (.str (if pyContainsStr q ":" then afterLastColon q else q))) ∧
    resolveActor (.dict [("userName", .str "arn:aws:iam::123:role/xyz.com-svc")]) =
      .ok (.str "role/xyz.com-svc") := by
  refine ⟨?_, ?_, rfl⟩
  · intro s hs p
    unfold resolveActor
    simp only [show pyGet1 (.dict [("userName", .str s), ("principalId", p)]) "userName" =
        Except.ok (.str s) from rfl, ebind_ok]
    rw [if_pos (by simp [pyTruthy, hs])]
    simp only [epure_eq, ebind_ok, pyInOp]
    cases hc : pyContainsStr s ":" <;>
      simp [hc, pySplitColonLast, afterLastColon, epure_eq]
  · intro q
    unfold resolveActor
    simp only [show pyGet1 (.dict [("principalId", .str q)]) "userName" =
        Except.ok .none from rfl, ebind_ok]
    rw [if_neg (by simp [pyTruthy])]
    simp only [show pyGetD (.dict [("principalId", .str q)]) "principalId" (.str "UnknownUser") =
        Except.ok (.str q) from rfl, ebind_ok]
    simp only [pyInOp]
    cases hc : pyContainsStr q ":" <;>
      simp [hc, pySplitColonLast, afterLastColon, epure_eq, ebind_ok]

/-- C7 witness: a userName with a colon resolves to the part after the
last colon. -/
theorem C7_actor_resolution_witness :
    resolveActor (.dict [("userName", .str "a:b"), ("principalId", .none)]) =
      .ok (.str "b") :=
  Eq.trans (C7_actor_resolution.1 "a:b" (by decide) .none) rfl

/-- The success body decomposes around the fixed "Notification sent"
text, whatever the attached slack message. -/
theorem jsonDumps_message_decomp (m : PyVal) :
    jsonDumps (.dict [("message", .str "Notification sent"), ("slack_message", m)]) =
      "\x7b\"message\": \"" ++ "Notification sent" ++
        ("\", \"slack_message\": " ++ jsonDumps m ++ "\x7d") := by
  have h1 : jsonDumps (.dict [("message", .str "Notification sent"), ("slack_message", m)]) =
      "\x7b" ++ (("\"message\"" ++ ": " ++ "\"Notification sent\"" ++ ", ") ++
        ("\"slack_message\"" ++ ": " ++ jsonDumps m)) ++ "\x7d" := rfl
  rw [h1]
  rcases hm : jsonDumps m with ⟨l⟩
  rfl

/-- A configured-and-well-formed or unconfigured webhook URL makes
the delivery step return normally. -/
theorem send_ok_of_url (cfg : Config) (msg : PyVal)
    (h : cfg.SLACK_WEBHOOK_URL = "" ∨ hasUrlScheme cfg.SLACK_WEBHOOK_URL = true) :
    ∃ posts, send_slack_notification cfg msg = .ok posts := by
  by_cases h0 : cfg.SLACK_WEBHOOK_URL = ""
  · exact ⟨[], by simp [send_slack_notification, h0]⟩
  · rcases h with h | h
    · exact absurd h h0
    · exact ⟨[PyAction.httpPost msg (cfg.transport msg)],
        by simp [send_slack_notification, h0, h]⟩

/-- C8 counterexample: the delivery step can change the invocation
status after all — the same filter-passing event returns 500 when the
configured webhook URL has no scheme (the `Request` constructor
raises outside the try block), and 200 when the URL is unset. -/
theorem C8_counterexample :
    (lambda_handler ⟨"hooks.slack.com/x", fun _ => Except.ok 200⟩
      (.dict [("detail", .dict [("userIdentity",
        .dict [("userName", .str "bob@xyz.com")])])])).1 =
      mkResp 500 ("Error processing event: unknown url type: \x27hooks.slack.com/x\x27") ∧
    (lambda_handler ⟨"", fun _ => Except.ok 200⟩
      (.dict [("detail", .dict [("userIdentity",
        .dict [("userName", .str "bob@xyz.com")])])])).1 =
      mkResp 200 (jsonDumps (.dict [("message", .str "Notification sent"),
        ("slack_message", .dict [("text",
          .str ("*AWS Infrastructure Change Detected! 🚨*\n👤 User: `bob@xyz.com`\n" ++
            "🛠 Event Source: `Unknown`\n🛠 Event: `UnknownEvent`\n" ++
            "🌍 Region: `Unknown`\n🕒 Time: `Unknown`\n"))])])) :=
  ⟨rfl, rfl⟩

/-- C8 amended: the two failure modes the claim names keep the 200
status — with SLACK_WEBHOOK_URL unconfigured `send_slack_notification`
returns without attempting any outbound call, and a failing outbound
call on a well-formed URL is caught and logged, never raised; in both
of these cases, for an actor passing the filter, `lambda_handler`
still returns statusCode 200 with "Notification sent" in the body.
(A configured URL without a scheme instead raises outside the
delivery try block and yields 500, per the counterexample.) -/
theorem C8_two_failure_modes_keep_200 (cfg : Config) (event msg : PyVal) :
    (cfg.SLACK_WEBHOOK_URL = "" → send_slack_notification cfg msg = .ok []) ∧
    (∀ e, hasUrlScheme cfg.SLACK_WEBHOOK_URL = true →
      cfg.transport msg = Except.error e →
      send_slack_notification cfg msg = .ok [PyAction.httpPost msg (Except.error e)]) ∧
    (∀ (des : List (String × PyVal)) (u : String) (kv : String × PyVal),
      pyGetD event "detail" (.dict []) = .ok (.dict des) →
      resolveActor ((des.lookup "userIdentity").getD (.dict [])) = .ok (.str u) →
      pyContainsStr u "@xyz.com" = true →
      extract_resource_details (.dict des)
        ((des.lookup "eventName").getD (.str "UnknownEvent")) = .ok kv →
      cfg.SLACK_WEBHOOK_URL = "" ∨ hasUrlScheme cfg.SLACK_WEBHOOK_URL = true →
      ∃ b pre post, (lambda_handler cfg event).1 = mkResp 200 b ∧
        b = pre ++ "Notification sent" ++ post) := by
  refine ⟨?_, ?_, ?_⟩
  · intro h
    simp [send_slack_notification, h]
  · intro e hs ht
    have h0 : cfg.SLACK_WEBHOOK_URL ≠ "" := by
      intro h
      rw [h] at hs
      simp [hasUrlScheme] at hs
    simp [send_slack_notification, h0, hs, ht]
  · intro des u kv hdet hres hfil hex hurl
    obtain ⟨rk, rv⟩ := kv
    obtain ⟨posts, hsend⟩ := send_ok_of_url cfg (.dict [("text",
      .str (renderText (.str u) ((des.lookup "eventSource").getD (.str "Unknown"))
        ((des.lookup "eventName").getD (.str "UnknownEvent")) rk rv
        ((des.lookup "awsRegion").getD (.str "Unknown"))
        ((des.lookup "eventTime").getD (.str "Unknown"))))]) hurl
    have hrun : (lambda_handler cfg event).1 = successResult (.dict [("text",
        .str (renderText (.str u) ((des.lookup "eventSource").getD (.str "Unknown"))
          ((des.lookup "eventName").getD (.str "UnknownEvent")) rk rv
          ((des.lookup "awsRegion").getD (.str "Unknown"))
          ((des.lookup "eventTime").getD (.str "Unknown"))))]) := by
      unfold lambda_handler hParse
      rw [hdet]
      simp only [ebind_ok]
      simp only [pyGetD, ebind_ok]
      rw [hres]
      simp only [ebind_ok, epure_eq, pyInOp, hfil]
      simp only [hex]
      simp only [hsend]
    exact ⟨_, "\x7b\"message\": \"",
      "\", \"slack_message\": " ++ jsonDumps (.dict [("text",
        .str (renderText (.str u) ((des.lookup "eventSource").getD (.str "Unknown"))
          ((des.lookup "eventName").getD (.str "UnknownEvent")) rk rv
          ((des.lookup "awsRegion").getD (.str "Unknown"))
          ((des.lookup "eventTime").getD (.str "Unknown"))))]) ++ "\x7d",
      hrun, jsonDumps_message_decomp _⟩

/-- C8 witness: with no webhook URL and a failing transport, a
filter-passing event still yields 200 with "Notification sent". -/
theorem C8_two_failure_modes_keep_200_witness :
    ∃ b pre post,
      (lambda_handler ⟨"", fun _ => Except.error "down"⟩
        (.dict [("detail", .dict [("userIdentity",
          .dict [("userName", .str "bob@xyz.com")])])])).1 = mkResp 200 b ∧
      b = pre ++ "Notification sent" ++ post :=
  (C8_two_failure_modes_keep_200 ⟨"", fun _ => Except.error "down"⟩
      (.dict [("detail", .dict [("userIdentity", .dict [("userName", .str "bob@xyz.com")])])])
      (.str "m")).2.2
    [("userIdentity", .dict [("userName", .str "bob@xyz.com")])] "bob@xyz.com" ("", .str "")
    rfl rfl rfl rfl (Or.inl rfl)

/-- C9 counterexample: in the end-to-end unregistered-event scenario
with a matching actor, the result status is not always 200 — with a
configured scheme-less webhook URL the `Request` constructor raises
outside the delivery try block and the handler returns 500. -/
theorem C9_counterexample :
    (lambda_handler ⟨"hooks.slack.com/x", fun _ => Except.ok 200⟩
      (.dict [("detail", .dict [("eventName", .str "UnknownThing"),
        ("userIdentity", .dict [("userName", .str "bob@xyz.com")])])])).1 =
      mkResp 500 ("Error processing event: unknown url type: \x27hooks.slack.com/x\x27") :=
  rfl

/-- C9 amended: the rendered message always contains the fixed header
and the actor, event source, event name, region and event time lines;
it contains the resource line exactly when both the extracted
resource key and value are non-empty strings (otherwise the message
is identical to the one rendered with no resource at all); and in the
end-to-end unregistered-event scenario with a matching actor the
message has no resource line and the result status is 200 whenever
the webhook URL is unset or well-formed (a configured scheme-less URL
instead yields 500, per the counterexample). -/
theorem C9_render_message :
    (∀ (u es en reg t : PyVal) (rk : String) (rv : PyVal),
      (∃ p q, renderText u es en rk rv reg t =
        p ++ "*AWS Infrastructure Change Detected! 🚨*\n" ++ q) ∧
      (∃ p q, renderText u es en rk rv reg t = p ++ ("👤 User: `" ++ pyStr u ++ "`\n") ++ q) ∧
      (∃ p q, renderText u es en rk rv reg t =
        p ++ ("🛠 Event Source: `" ++ pyStr es ++ "`\n") ++ q) ∧
      (∃ p q, renderText u es en rk rv reg t = p ++ ("🛠 Event: `" ++ pyStr en ++ "`\n") ++ q) ∧
      (∃ p q, renderText u es en rk rv reg t = p ++ ("🌍 Region: `" ++ pyStr reg ++ "`\n") ++ q) ∧
      (∃ p q, renderText u es en rk rv reg t = p ++ ("🕒 Time: `" ++ pyStr t ++ "`\n") ++ q)) ∧
    (∀ (rk rv : String) (u es en reg t : PyVal),
      (rk ≠ "" → rv ≠ "" → ∃ p q, renderText u es en rk (.str rv) reg t =
        p ++ ("🛠 " ++ rk ++ ": `" ++ rv ++ "`\n") ++ q) ∧
      ((rk = "" ∨ rv = "") → renderText u es en rk (.str rv) reg t =
        renderText u es en "" (.str "") reg t)) ∧
    (∀ cfg : Config,
      cfg.SLACK_WEBHOOK_URL = "" ∨ hasUrlScheme cfg.SLACK_WEBHOOK_URL = true →
      (lambda_handler cfg (.dict [("detail", .dict [("eventName", .str "UnknownThing"),
        ("userIdentity", .dict [("userName", .str "bob@xyz.com")])])])).1 =
      mkResp 200 (jsonDumps (.dict [("message", .str "Notification sent"),
        ("slack_message", .dict [("text", .str ("*AWS Infrastructure Change Detected! 🚨*\n" ++
          "👤 User: `bob@xyz.com`\n🛠 Event Source: `Unknown`\n🛠 Event: `UnknownThing`\n" ++
          "🌍 Region: `Unknown`\n🕒 Time: `Unknown`\n"))])]))) := by
  have hscene : ∀ cfg : Config,
      cfg.SLACK_WEBHOOK_URL = "" ∨ hasUrlScheme cfg.SLACK_WEBHOOK_URL = true →
      (lambda_handler cfg (.dict [("detail", .dict [("eventName", .str "UnknownThing"),
        ("userIdentity", .dict [("userName", .str "bob@xyz.com")])])])).1 =
      mkResp 200 (jsonDumps (.dict [("message", .str "Notification sent"),
        ("slack_message", .dict [("text", .str ("*AWS Infrastructure Change Detected! 🚨*\n" ++
          "👤 User: `bob@xyz.com`\n🛠 Event Source: `Unknown`\n🛠 Event: `UnknownThing`\n" ++
          "🌍 Region: `Unknown`\n🕒 Time: `Unknown`\n"))])])) := by
    intro cfg hurl
    obtain ⟨posts, hsend⟩ := send_ok_of_url cfg (.dict [("text",
      .str ("*AWS Infrastructure Change Detected! 🚨*\n" ++
        "👤 User: `bob@xyz.com`\n🛠 Event Source: `Unknown`\n🛠 Event: `UnknownThing`\n" ++
        "🌍 Region: `Unknown`\n🕒 Time: `Unknown`\n"))]) hurl
    have hred : lambda_handler cfg (.dict [("detail", .dict [("eventName", .str "UnknownThing"),
        ("userIdentity", .dict [("userName", .str "bob@xyz.com")])])]) =
        (match send_slack_notification cfg (.dict [("text",
          .str ("*AWS Infrastructure Change Detected! 🚨*\n" ++
            "👤 User: `bob@xyz.com`\n🛠 Event Source: `Unknown`\n🛠 Event: `UnknownThing`\n" ++
            "🌍 Region: `Unknown`\n🕒 Time: `Unknown`\n"))]) with
        | .error e => (err500 e,
            [PyAction.extractCall (.dict [("eventName", .str "UnknownThing"),
              ("userIdentity", .dict [("userName", .str "bob@xyz.com")])]) (.str "UnknownThing"),
             PyAction.slackInvoke (.dict [("text",
              .str ("*AWS Infrastructure Change Detected! 🚨*\n" ++
                "👤 User: `bob@xyz.com`\n🛠 Event Source: `Unknown`\n🛠 Event: `UnknownThing`\n" ++
                "🌍 Region: `Unknown`\n🕒 Time: `Unknown`\n"))])])
        | .ok posts2 => (successResult (.dict [("text",
            .str ("*AWS Infrastructure Change Detected! 🚨*\n" ++
              "👤 User: `bob@xyz.com`\n🛠 Event Source: `Unknown`\n🛠 Event: `UnknownThing`\n" ++
              "🌍 Region: `Unknown`\n🕒 Time: `Unknown`\n"))]),
            PyAction.extractCall (.dict [("eventName", .str "UnknownThing"),
              ("userIdentity", .dict [("userName", .str "bob@xyz.com")])]) (.str "UnknownThing") ::
            PyAction.slackInvoke (.dict [("text",
              .str ("*AWS Infrastructure Change Detected! 🚨*\n" ++
                "👤 User: `bob@xyz.com`\n🛠 Event Source: `Unknown`\n🛠 Event: `UnknownThing`\n" ++
                "🌍 Region: `Unknown`\n🕒 Time: `Unknown`\n"))]) :: posts2)) := rfl
    rw [hred, hsend]
    rfl
  refine ⟨?_, ?_, hscene⟩
  · intro u es en reg t rk rv
    refine ⟨⟨"",
        "👤 User: `" ++ pyStr u ++ "`\n" ++ "🛠 Event Source: `" ++ pyStr es ++ "`\n" ++
        "🛠 Event: `" ++ pyStr en ++ "`\n" ++
        (if !(rk == "") && pyTruthy rv then "🛠 " ++ rk ++ ": `" ++ pyStr rv ++ "`\n" else "") ++
        "🌍 Region: `" ++ pyStr reg ++ "`\n" ++ "🕒 Time: `" ++ pyStr t ++ "`\n", ?_⟩,
      ⟨"*AWS Infrastructure Change Detected! 🚨*\n",
        "🛠 Event Source: `" ++ pyStr es ++ "`\n" ++ "🛠 Event: `" ++ pyStr en ++ "`\n" ++
        (if !(rk == "") && pyTruthy rv then "🛠 " ++ rk ++ ": `" ++ pyStr rv ++ "`\n" else "") ++
        "🌍 Region: `" ++ pyStr reg ++ "`\n" ++ "🕒 Time: `" ++ pyStr t ++ "`\n", ?_⟩,
      ⟨"*AWS Infrastructure Change Detected! 🚨*\n" ++ "👤 User: `" ++ pyStr u ++ "`\n",
        "🛠 Event: `" ++ pyStr en ++ "`\n" ++
        (if !(rk == "") && pyTruthy rv then "🛠 " ++ rk ++ ": `" ++ pyStr rv ++ "`\n" else "") ++
        "🌍 Region: `" ++ pyStr reg ++ "`\n" ++ "🕒 Time: `" ++ pyStr t ++ "`\n", ?_⟩,
      ⟨"*AWS Infrastructure Change Detected! 🚨*\n" ++ "👤 User: `" ++ pyStr u ++ "`\n" ++
        "🛠 Event Source: `" ++ pyStr es ++ "`\n",
        (if !(rk == "") && pyTruthy rv then "🛠 " ++ rk ++ ": `" ++ pyStr rv ++ "`\n" else "") ++
        "🌍 Region: `" ++ pyStr reg ++ "`\n" ++ "🕒 Time: `" ++ pyStr t ++ "`\n", ?_⟩,
      ⟨"*AWS Infrastructure Change Detected! 🚨*\n" ++ "👤 User: `" ++ pyStr u ++ "`\n" ++
        "🛠 Event Source: `" ++ pyStr es ++ "`\n" ++ "🛠 Event: `" ++ pyStr en ++ "`\n" ++
        (if !(rk == "") && pyTruthy rv then "🛠 " ++ rk ++ ": `" ++ pyStr rv ++ "`\n" else ""),
        "🕒 Time: `" ++ pyStr t ++ "`\n", ?_⟩,
      ⟨"*AWS Infrastructure Change Detected! 🚨*\n" ++ "👤 User: `" ++ pyStr u ++ "`\n" ++
        "🛠 Event Source: `" ++ pyStr es ++ "`\n" ++ "🛠 Event: `" ++ pyStr en ++ "`\n" ++
        (if !(rk == "") && pyTruthy rv then "🛠 " ++ rk ++ ": `" ++ pyStr rv ++ "`\n" else "") ++
        "🌍 Region: `" ++ pyStr reg ++ "`\n", "", ?_⟩⟩ <;>
    · simp [renderText, String.append_assoc, String.empty_append, String.append_empty]
      try rfl
  · intro rk rv u es en reg t
    constructor
    · intro h1 h2
      refine ⟨"*AWS Infrastructure Change Detected! 🚨*\n" ++ "👤 User: `" ++ pyStr u ++ "`\n" ++
        "🛠 Event Source: `" ++ pyStr es ++ "`\n" ++ "🛠 Event: `" ++ pyStr en ++ "`\n",
        "🌍 Region: `" ++ pyStr reg ++ "`\n" ++ "🕒 Time: `" ++ pyStr t ++ "`\n", ?_⟩
      simp [renderText, h1, h2, pyTruthy, pyStr, String.append_assoc]
      try rfl
    · intro h0
      rcases h0 with rfl | rfl <;>
      · simp [renderText, pyTruthy, pyStr]
        try rfl

/-- C9 witness: with both key and value nonempty the resource line is
present. -/
theorem C9_render_message_witness :
    ∃ p q, renderText (.str "u") (.str "s") (.str "e") "K" (.str "V") (.str "r") (.str "t") =
      p ++ ("🛠 " ++ "K" ++ ": `" ++ "V" ++ "`\n") ++ q :=
  (C9_render_message.2.1 "K" "V" (.str "u") (.str "s") (.str "e") (.str "r") (.str "t")).1
    (by decide) (by decide)

/-- C10: with neither userName nor principalId present (or userName
present but the empty string and principalId absent), the resolved
actor is the literal UnknownUser, which does not contain the marker,
so the event is always filtered out: no extraction, no delivery
attempt, and the skipped 200 result. -/
theorem C10_unknown_user_filtered (cfg : Config) (event : PyVal)
    (des ui : List (String × PyVal))
    (hdet : pyGetD event "detail" (.dict []) = .ok (.dict des))
    (hui : (des.lookup "userIdentity").getD (.dict []) = .dict ui)
    (hun : ui.lookup "userName" = Option.none ∨ ui.lookup "userName" = some (.str ""))
    (hpid : ui.lookup "principalId" = Option.none) :
    resolveActor (.dict ui) = .ok (.str "UnknownUser") ∧
    pyContainsStr "UnknownUser" "@xyz.com" = false ∧
    lambda_handler cfg event = (skippedResult, []) := by
  have hres : resolveActor (.dict ui) = .ok (.str "UnknownUser") := by
    unfold resolveActor
    rcases hun with h | h <;>
    · simp only [show pyGet1 (.dict ui) "userName" =
          Except.ok ((ui.lookup "userName").getD .none) from rfl, h, ebind_ok]
      rw [if_neg (by simp [pyTruthy])]
      simp only [show pyGetD (.dict ui) "principalId" (.str "UnknownUser") =
          Except.ok ((ui.lookup "principalId").getD (.str "UnknownUser")) from rfl, hpid,
        ebind_ok]
      rfl
  refine ⟨hres, by decide, skip_of_actor cfg event des "UnknownUser" hdet ?_ (by decide)⟩
  rw [hui]
  exact hres

/-- C10 witness: an event with no userIdentity at all is skipped with
an empty action trace. -/
theorem C10_unknown_user_filtered_witness :
    resolveActor (.dict []) = .ok (.str "UnknownUser") ∧
    pyContainsStr "UnknownUser" "@xyz.com" = false ∧
    lambda_handler ⟨"https://example.com/hook", fun _ => Except.ok 200⟩
      (.dict [("detail", .dict [("eventName", .str "RunInstances")])]) = (skippedResult, []) :=
  C10_unknown_user_filtered ⟨"https://example.com/hook", fun _ => Except.ok 200⟩
    (.dict [("detail", .dict [("eventName", .str "RunInstances")])])
    [("eventName", .str "RunInstances")] [] rfl rfl (Or.inl rfl) rfl
